import Mathlib

/-!
Shallow embedding of the treat-garmin-service biometric pipeline.

The embedding covers, translated from the repository sources:
* the JSON-shaped values stored in the `biometric_data.value` JSONB column and
  the Python-level operations the service applies to them
  (`biometric_data_analytics.py` and `biometric_data_service.py`);
* the daily metric extractor `_calculate_daily_metrics` with its per-family
  reduction rules (steps, heart rate, resting HR, sleep, stress, HRV,
  body battery, SpO2);
* the statistical analyzer `_calculate_average_metrics`,
  `_calculate_trend_metrics` (scipy.stats.linregress modelled by its
  ordinary-least-squares closed forms, with the transcendental p-value
  supplied as an explicit oracle argument) and
  `_calculate_correlation_metrics` (pandas `DataFrame.corr` with
  `min_periods=3`, Pearson entries represented exactly as the signed square
  `sign(r) * r^2`, a strictly monotone recoding of `r` that stays rational);
* the telemetry normalizer `_save_to_timescale` (row construction) together
  with the idempotent keyed upsert it performs, timestamps represented
  symbolically;
* the analytics job processor `_process_job` / `run_processor` drain loop and
  `_calculate_analytics` over the three trailing windows.

Machine floats are modelled by exact rationals; the claims under study are
structural (which values are kept, which keys are produced, how entries are
gated) and do not depend on rounding.
-/

namespace Biometric

/-- JSON-shaped Python values: what `json.loads` produces, what psycopg2 hands
back for a JSONB column, and what the Garmin client returns. Numbers are kept
as exact rationals (Python int and float literals from JSON payloads). -/
inductive Json where
  | null
  | bool (b : Bool)
  | num (q : ℚ)
  | str (s : String)
  | arr (items : List Json)
  | obj (fields : List (String × Json))

/-- A value read back from the `value` column as seen by
`_calculate_daily_metrics`: either a Python `str` (whose `json.loads` outcome
is carried explicitly, `none` meaning `json.JSONDecodeError`), or any other
Python object in JSON shape. -/
inductive PyVal where
  | pstr (parsed : Option Json)
  | pval (j : Json)

/-- The `value_data` computed at the top of every per-row loop in
`_calculate_daily_metrics`:
`if isinstance(value, str): value_data = json.loads(value)`
`elif isinstance(value, dict): value_data = value` `else: continue`.
`none` means the row is skipped (`continue`). -/
def value_data : PyVal → Option Json
  | .pstr none => none
  | .pstr (some j) => some j
  | .pval (Json.obj fields) => some (Json.obj fields)
  | .pval _ => none

/-- Python truthiness of a JSON-shaped value (`if value_data[k]:`). -/
def truthy : Json → Bool
  | .null => false
  | .bool b => b
  | .num q => decide (q ≠ 0)
  | .str s => decide (s ≠ "")
  | .arr items => !items.isEmpty
  | .obj fields => !fields.isEmpty

/-- `s.startswith(pre)`, computed on the underlying character lists (the
byte-indexed core implementation does not reduce definitionally). -/
def starts_with (s pre : String) : Bool := pre.data.isPrefixOf s.data

/-- `s.endswith(suf)`, computed on the underlying character lists. -/
def ends_with (s suf : String) : Bool :=
  suf.data.reverse.isPrefixOf s.data.reverse

/-- Lexicographic comparison of character lists. -/
def le_chars : List Char → List Char → Bool
  | [], _ => true
  | _ :: _, [] => false
  | x :: xs, y :: ys => if x = y then le_chars xs ys else decide (x < y)

/-- Lexicographic string order on the underlying character lists; on the
ISO-format date strings at hand this is chronological order. -/
def str_le (a b : String) : Bool := le_chars a.data b.data

/-- First-match association lookup, the model of Python dict subscripting and
of dict key order (Python dict keys are unique). -/
def lookup_str {α : Type} : List (String × α) → String → Option α
  | [], _ => none
  | p :: rest, k => if p.1 = k then some p.2 else lookup_str rest k

/-- Python `k in value_data`. For a dict this is a key test; for a list it is
membership (string equality against each element); for a string it is the
substring test; for any non-container it raises `TypeError`, which every
per-row loop catches and turns into `continue` — modelled as `none`. -/
def py_contains : Json → String → Option Bool
  | .obj fields, k => some (fields.any (fun p => p.1 == k))
  | .arr items, k => some (items.any (fun x => match x with
      | .str s => s == k
      | _ => false))
  | .str s, k => some (decide (2 ≤ (s.splitOn k).length))
  | _, _ => none

/-- Python `value_data[k]`. Succeeds only on a dict holding the key; a missing
key (`KeyError`) or a non-dict subscripted with a string (`TypeError`) are both
caught by the surrounding `except` and become `continue` — modelled `none`. -/
def py_get : Json → String → Option Json
  | .obj fields, k => lookup_str fields k
  | _, _ => none

/-- The guard `k in value_data and value_data[k]` heading one `elif` arm of a
per-row chain. `none`: an exception was raised and the row is skipped;
`some none`: the guard is false, fall through to the next arm;
`some (some x)`: the guard holds with (truthy) field value `x`. -/
def arm (vd : Json) (k : String) : Option (Option Json) :=
  match py_contains vd k with
  | none => none
  | some false => some none
  | some true =>
    match py_get vd k with
    | none => none
    | some x => if truthy x then some (some x) else some none

/-- Truncation toward zero, the behaviour of Python `int()` on a float. -/
def rat_trunc (q : ℚ) : ℤ := if 0 ≤ q then ⌊q⌋ else ⌈q⌉

/-- Python `int(s)` for a string: optional surrounding whitespace, optional
sign, decimal digits. (Underscore digit separators are not modelled; the
payloads at hand never use them.) -/
def str_to_int (s : String) : Option ℤ :=
  let t := s.trim
  let neg := starts_with t "-"
  let core := if starts_with t "+" || starts_with t "-" then t.drop 1 else t
  if core ≠ "" ∧ core.all Char.isDigit then
    (core.toNat?).map (fun n => if neg then -(n : ℤ) else (n : ℤ))
  else none

/-- Python `float(s)` for a string: optional whitespace and sign, decimal
digits with an optional fractional part. (Exponent notation and inf/nan are
not modelled; the payloads at hand are plain decimals.) -/
def str_to_rat (s : String) : Option ℚ :=
  let t := s.trim
  let neg := starts_with t "-"
  let core := if starts_with t "+" || starts_with t "-" then t.drop 1 else t
  match core.splitOn "." with
  | [a] =>
    if a ≠ "" ∧ a.all Char.isDigit then
      (a.toNat?).map (fun n => if neg then -(n : ℚ) else (n : ℚ))
    else none
  | [a, b] =>
    if (a ≠ "" ∨ b ≠ "") ∧ a.all Char.isDigit ∧ b.all Char.isDigit then
      match a.toNat?, b.toNat? with
      | some na, some nb =>
        let q : ℚ := (na : ℚ) + (nb : ℚ) / ((10 : ℚ) ^ b.length)
        some (if neg then -q else q)
      | some na, none =>
        if b = "" then some (if neg then -(na : ℚ) else (na : ℚ)) else none
      | none, some nb =>
        if a = "" then
          let q : ℚ := (nb : ℚ) / ((10 : ℚ) ^ b.length)
          some (if neg then -q else q)
        else none
      | none, none => none
    else none
  | _ => none

/-- Python `int(x)` on a JSON-shaped value; `none` models the `ValueError` or
`TypeError` that the per-row `except` clauses catch. Python `bool` is an `int`
subclass. -/
def py_int : Json → Option ℤ
  | .num q => some (rat_trunc q)
  | .bool b => some (if b then 1 else 0)
  | .str s => str_to_int s
  | _ => none

/-- Python `float(x)` on a JSON-shaped value; `none` models `ValueError` /
`TypeError`. -/
def py_float : Json → Option ℚ
  | .num q => some q
  | .bool b => some (if b then 1 else 0)
  | .str s => str_to_rat s
  | _ => none

/-- Mean of a list of rationals, `sum(values) / len(values)` (callers only
apply it to nonempty lists). -/
def mean (l : List ℚ) : ℚ := l.sum / (l.length : ℚ)

/-! ## Daily Metric Extractor (`_calculate_daily_metrics`)

One user-day of one metric family is the dict `user_data[data_type][date]`:
a list of `(metric_name, value)` pairs with unique names. Each family below
folds the code of its per-row loop over that list. -/

/-- One step of the steps loop: the accumulator is
`(step_count, total_steps)`. Branches, in source order: `steps.count` rows
(`step_count = max(step_count, int(count) if count else 0)`), `steps.item_i`
interval rows (`total_steps += int(steps) if steps else 0`), and the legacy
bare numeric `steps` row (`step_count = max(step_count, int(value_data))`,
guarded by `isinstance(value_data, (int, float))`, which in Python also
admits bool). -/
def steps_row (acc : ℤ × ℤ) (row : String × PyVal) : ℤ × ℤ :=
  match value_data row.2 with
  | none => acc
  | some vd =>
    if row.1 = "steps.count" then
      match py_contains vd "count" with
      | none => acc
      | some false => acc
      | some true =>
        match py_get vd "count" with
        | none => acc
        | some c =>
          if truthy c then
            match py_int c with
            | none => acc
            | some n => (max acc.1 n, acc.2)
          else (max acc.1 0, acc.2)
    else if starts_with row.1 "steps.item_" then
      match py_contains vd "steps" with
      | none => acc
      | some false => acc
      | some true =>
        match py_get vd "steps" with
        | none => acc
        | some c =>
          if truthy c then
            match py_int c with
            | none => acc
            | some n => (acc.1, acc.2 + n)
          else (acc.1, acc.2 + 0)
    else if row.1 = "steps" then
      match vd with
      | .num q => (max acc.1 (rat_trunc q), acc.2)
      | .bool b => (max acc.1 (if b then 1 else 0), acc.2)
      | _ => acc
    else acc

/-- The steps value stored for a day:
`daily_metrics[date]['steps'] = max(step_count, total_steps)`. -/
def steps_of_day (rows : List (String × PyVal)) : ℤ :=
  let acc := rows.foldl steps_row (0, 0)
  max acc.1 acc.2

/-- Accumulator for the heart-rate loop: latest `resting_hr` assignment and
the `hr_values` list. -/
structure HrAcc where
  resting : Option ℚ
  vals : List ℚ

/-- One step of the heart-rate loop, arms in source order:
`restingHeartRate` (immediate `resting_hr` assignment), `value` on a
`heart_rate`-prefixed metric name, `avgHeartRate`, `heartRateValues` (a list
comprehension that truthiness-filters elements before coercion and whose
single failure aborts the whole `extend`). -/
def heart_rate_row (acc : HrAcc) (row : String × PyVal) : HrAcc :=
  match value_data row.2 with
  | none => acc
  | some vd =>
    match arm vd "restingHeartRate" with
    | none => acc
    | some (some x) =>
      match py_float x with
      | some f => { acc with resting := some f }
      | none => acc
    | some none =>
      match arm vd "value" with
      | none => acc
      | some (some y) =>
        if starts_with row.1 "heart_rate" then
          match py_float y with
          | some f => { acc with vals := acc.vals ++ [f] }
          | none => acc
        else hr_rest acc vd
      | some none => hr_rest acc vd
where
  /-- The `avgHeartRate` / `heartRateValues` tail of the chain. -/
  hr_rest (acc : HrAcc) (vd : Json) : HrAcc :=
    match arm vd "avgHeartRate" with
    | none => acc
    | some (some z) =>
      match py_float z with
      | some f => { acc with vals := acc.vals ++ [f] }
      | none => acc
    | some none =>
      match arm vd "heartRateValues" with
      | none => acc
      | some (some w) =>
        match w with
        | .arr items =>
          match (items.filter truthy).mapM py_float with
          | some fs => { acc with vals := acc.vals ++ fs }
          | none => acc
        | _ =>
          match py_float w with
          | some f => { acc with vals := acc.vals ++ [f] }
          | none => acc
      | some none => acc

/-- Heart-rate reduction for one day: the last `resting_hr` assignment and
the average of `hr_values` when nonempty. -/
def heart_rate_of_day (rows : List (String × PyVal)) : Option ℚ × Option ℚ :=
  let acc := rows.foldl heart_rate_row ⟨none, []⟩
  (acc.resting, if acc.vals = [] then none else some (mean acc.vals))

/-- One step of the standalone `resting_hr` family loop: a truthy `value`
field, else a truthy `restingHeartRate` field, each assigned immediately
(last row wins). -/
def resting_hr_row (acc : Option ℚ) (row : String × PyVal) : Option ℚ :=
  match value_data row.2 with
  | none => acc
  | some vd =>
    match arm vd "value" with
    | none => acc
    | some (some x) =>
      match py_float x with
      | some f => some f
      | none => acc
    | some none =>
      match arm vd "restingHeartRate" with
      | none => acc
      | some (some x) =>
        match py_float x with
        | some f => some f
        | none => acc
      | some none => acc

/-- Resting-HR reduction for one day (last assignment wins). -/
def resting_hr_of_day (rows : List (String × PyVal)) : Option ℚ :=
  rows.foldl resting_hr_row none

/-- One step of the sleep loop: `sleepTimeSeconds` then
`totalSleepTimeSeconds` (both assigning `sleep_duration` in hours) then
`deepSleepSeconds` (assigning `deep_sleep`); assignments are immediate, so
the accumulator keeps the latest value per key. -/
def sleep_row (acc : Option ℚ × Option ℚ) (row : String × PyVal) :
    Option ℚ × Option ℚ :=
  match value_data row.2 with
  | none => acc
  | some vd =>
    match arm vd "sleepTimeSeconds" with
    | none => acc
    | some (some x) =>
      match py_float x with
      | some f => (some (f / 3600), acc.2)
      | none => acc
    | some none =>
      match arm vd "totalSleepTimeSeconds" with
      | none => acc
      | some (some x) =>
        match py_float x with
        | some f => (some (f / 3600), acc.2)
        | none => acc
      | some none =>
        match arm vd "deepSleepSeconds" with
        | none => acc
        | some (some x) =>
          match py_float x with
          | some f => (acc.1, some (f / 3600))
          | none => acc
        | some none => acc

/-- Sleep reduction for one day: `(sleep_duration, deep_sleep)`. -/
def sleep_of_day (rows : List (String × PyVal)) : Option ℚ × Option ℚ :=
  rows.foldl sleep_row (none, none)

/-- One step of the stress loop, arms in source order: `avgStressLevel`,
`overallStressLevel`, `value` on a `stress`-prefixed metric name; matches
append to `stress_values`. -/
def stress_row (acc : List ℚ) (row : String × PyVal) : List ℚ :=
  match value_data row.2 with
  | none => acc
  | some vd =>
    match arm vd "avgStressLevel" with
    | none => acc
    | some (some x) =>
      match py_float x with
      | some f => acc ++ [f]
      | none => acc
    | some none =>
      match arm vd "overallStressLevel" with
      | none => acc
      | some (some x) =>
        match py_float x with
        | some f => acc ++ [f]
        | none => acc
      | some none =>
        match arm vd "value" with
        | none => acc
        | some (some x) =>
          if starts_with row.1 "stress" then
            match py_float x with
            | some f => acc ++ [f]
            | none => acc
          else acc
        | some none => acc

/-- Stress reduction for one day: `avg_stress` is the mean of the collected
values when the list is nonempty, otherwise no entry is written. -/
def avg_stress_of_day (rows : List (String × PyVal)) : Option ℚ :=
  let vals := rows.foldl stress_row []
  if vals = [] then none else some (mean vals)

/-- Accumulator of the HRV loop: the four assigned summary fields (last row
wins) plus the two appended reading lists. -/
structure HrvAcc where
  weekly : Option ℚ
  lastNight : Option ℚ
  fiveMinHigh : Option ℚ
  fiveMinLow : Option ℚ
  readings : List ℚ
  legacy : List ℚ

/-- One step of the HRV loop, arms in source order: `weeklyAvg`,
`lastNightAvg`, `lastNight5MinHigh`, `lastNight5MinLow`, `hrvValue`
(appended to `hrv_readings`), `avgHRV` (appended to `legacy_hrv`), `value`
on an `hrv`-prefixed metric name (appended to `legacy_hrv`). Note the row
chain tests `weeklyAvg` before `lastNightAvg`. -/
def hrv_row (acc : HrvAcc) (row : String × PyVal) : HrvAcc :=
  match value_data row.2 with
  | none => acc
  | some vd =>
    match arm vd "weeklyAvg" with
    | none => acc
    | some (some x) =>
      match py_float x with
      | some f => { acc with weekly := some f }
      | none => acc
    | some none =>
      match arm vd "lastNightAvg" with
      | none => acc
      | some (some x) =>
        match py_float x with
        | some f => { acc with lastNight := some f }
        | none => acc
      | some none =>
        match arm vd "lastNight5MinHigh" with
        | none => acc
        | some (some x) =>
          match py_float x with
          | some f => { acc with fiveMinHigh := some f }
          | none => acc
        | some none =>
          match arm vd "lastNight5MinLow" with
          | none => acc
          | some (some x) =>
            match py_float x with
            | some f => { acc with fiveMinLow := some f }
            | none => acc
          | some none =>
            match arm vd "hrvValue" with
            | none => acc
            | some (some x) =>
              match py_float x with
              | some f => { acc with readings := acc.readings ++ [f] }
              | none => acc
            | some none =>
              match arm vd "avgHRV" with
              | none => acc
              | some (some x) =>
                match py_float x with
                | some f => { acc with legacy := acc.legacy ++ [f] }
                | none => acc
              | some none =>
                match arm vd "value" with
                | none => acc
                | some (some x) =>
                  if starts_with row.1 "hrv" then
                    match py_float x with
                    | some f => { acc with legacy := acc.legacy ++ [f] }
                    | none => acc
                  else acc
                | some none => acc

/-- The per-day HRV aggregates (initial accumulator: nothing assigned). -/
def hrv_agg (rows : List (String × PyVal)) : HrvAcc :=
  rows.foldl hrv_row ⟨none, none, none, none, [], []⟩

/-- The primary daily HRV metric `avg_hrv`, source lines 431-443:
prefer `lastNightAvg`, then `weeklyAvg`, then the mean of the `hrvValue`
readings, then the mean of the legacy values; no entry when all are absent. -/
def avg_hrv_of_day (rows : List (String × PyVal)) : Option ℚ :=
  let a := hrv_agg rows
  match a.lastNight with
  | some v => some v
  | none =>
    match a.weekly with
    | some v => some v
    | none =>
      if a.readings ≠ [] then some (mean a.readings)
      else if a.legacy ≠ [] then some (mean a.legacy)
      else none

/-- One step of the body-battery loop, arms in source order:
`bodyBatteryValue`, `value` on a `body_battery`-prefixed metric name. -/
def body_battery_row (acc : List ℚ) (row : String × PyVal) : List ℚ :=
  match value_data row.2 with
  | none => acc
  | some vd =>
    match arm vd "bodyBatteryValue" with
    | none => acc
    | some (some x) =>
      match py_float x with
      | some f => acc ++ [f]
      | none => acc
    | some none =>
      match arm vd "value" with
      | none => acc
      | some (some x) =>
        if starts_with row.1 "body_battery" then
          match py_float x with
          | some f => acc ++ [f]
          | none => acc
        else acc
      | some none => acc

/-- Body-battery reduction for one day (`avg_body_battery`). -/
def avg_body_battery_of_day (rows : List (String × PyVal)) : Option ℚ :=
  let vals := rows.foldl body_battery_row []
  if vals = [] then none else some (mean vals)

/-- One step of the SpO2 loop, arms in source order: `avgSpo2`, `value` on a
`spo2`-prefixed metric name. -/
def spo2_row (acc : List ℚ) (row : String × PyVal) : List ℚ :=
  match value_data row.2 with
  | none => acc
  | some vd =>
    match arm vd "avgSpo2" with
    | none => acc
    | some (some x) =>
      match py_float x with
      | some f => acc ++ [f]
      | none => acc
    | some none =>
      match arm vd "value" with
      | none => acc
      | some (some x) =>
        if starts_with row.1 "spo2" then
          match py_float x with
          | some f => acc ++ [f]
          | none => acc
        else acc
      | some none => acc

/-- SpO2 reduction for one day (`avg_spo2`). -/
def avg_spo2_of_day (rows : List (String × PyVal)) : Option ℚ :=
  let vals := rows.foldl spo2_row []
  if vals = [] then none else some (mean vals)

/-! ## Merging the family reductions into `daily_metrics`

`daily_metrics` is a dict date → (dict metric-name → float); both dicts keep
insertion order, so the model is an insertion-ordered association list. -/

/-- `daily_metrics`, as built by `_calculate_daily_metrics`. -/
abbrev DailyMetrics := List (String × List (String × ℚ))

/-- `user_data`, as returned by `_get_user_data`:
data_type → (date → (metric_name → value)). -/
abbrev UserData := List (String × List (String × List (String × PyVal)))

/-- `d[k] = v` on an insertion-ordered dict: overwrite in place, else append. -/
def upd_assoc (l : List (String × ℚ)) (k : String) (v : ℚ) :
    List (String × ℚ) :=
  if l.any (fun p => p.1 == k) then
    l.map (fun p => if p.1 = k then (k, v) else p)
  else l ++ [(k, v)]

/-- `if date not in daily_metrics: daily_metrics[date] = {}`. -/
def ensure_date (dm : DailyMetrics) (d : String) : DailyMetrics :=
  if dm.any (fun p => p.1 == d) then dm else dm ++ [(d, [])]

/-- `daily_metrics[date][key] = v` (the date entry always exists by the time
a value is written, but the model creates it defensively like the code). -/
def set_metric (dm : DailyMetrics) (d k : String) (v : ℚ) : DailyMetrics :=
  let dm := ensure_date dm d
  dm.map (fun p => if p.1 = d then (d, upd_assoc p.2 k v) else p)

/-- Write an optional day value under a key. -/
def set_metric_opt (dm : DailyMetrics) (d k : String) : Option ℚ →
    DailyMetrics
  | some v => set_metric dm d k v
  | none => dm

/-- Process one family of `user_data`: create each date entry, then apply the
per-day writes computed by `day_writes`. -/
def process_family (day_writes : String → List (String × PyVal) →
    DailyMetrics → DailyMetrics)
    (dm : DailyMetrics) (dates : List (String × List (String × PyVal))) :
    DailyMetrics :=
  dates.foldl (fun dm p => day_writes p.1 p.2 (ensure_date dm p.1)) dm

/-- `_calculate_daily_metrics`, families in source order: steps, heart_rate,
resting_hr, sleep, stress, hrv, body_battery, spo2. A family is processed
only when its key is present in `user_data`. -/
def calculate_daily_metrics (ud : UserData) : DailyMetrics :=
  let step := fun (f : String) (dm : DailyMetrics)
      (w : String → List (String × PyVal) → DailyMetrics → DailyMetrics) =>
    match lookup_str ud f with
    | some dates => process_family w dm dates
    | none => dm
  let dm : DailyMetrics := []
  let dm := step "steps" dm (fun d rows dm =>
    set_metric dm d "steps" ((steps_of_day rows : ℤ) : ℚ))
  let dm := step "heart_rate" dm (fun d rows dm =>
    let r := heart_rate_of_day rows
    set_metric_opt (set_metric_opt dm d "resting_hr" r.1) d "avg_hr" r.2)
  let dm := step "resting_hr" dm (fun d rows dm =>
    set_metric_opt dm d "resting_hr" (resting_hr_of_day rows))
  let dm := step "sleep" dm (fun d rows dm =>
    let r := sleep_of_day rows
    set_metric_opt (set_metric_opt dm d "sleep_duration" r.1) d "deep_sleep"
      r.2)
  let dm := step "stress" dm (fun d rows dm =>
    set_metric_opt dm d "avg_stress" (avg_stress_of_day rows))
  let dm := step "hrv" dm (fun d rows dm =>
    let a := hrv_agg rows
    let dm := set_metric_opt dm d "hrv_weekly_avg" a.weekly
    let dm := set_metric_opt dm d "hrv_last_night_avg" a.lastNight
    let dm := set_metric_opt dm d "hrv_5min_high" a.fiveMinHigh
    let dm := set_metric_opt dm d "hrv_5min_low" a.fiveMinLow
    let dm := set_metric_opt dm d "hrv_readings_avg"
      (if a.readings ≠ [] then some (mean a.readings) else none)
    set_metric_opt dm d "avg_hrv" (avg_hrv_of_day rows))
  let dm := step "body_battery" dm (fun d rows dm =>
    set_metric_opt dm d "avg_body_battery" (avg_body_battery_of_day rows))
  let dm := step "spo2" dm (fun d rows dm =>
    set_metric_opt dm d "avg_spo2" (avg_spo2_of_day rows))
  dm

/-! ## Statistical Analyzer -/

/-- Insert one dated row into a date-sorted list (dates are ISO strings, whose
lexicographic order is chronological order, so `df.sort_index()` after
`pd.to_datetime` is modelled by string-ordered insertion sort). -/
def insert_by_date (r : String × List (String × ℚ)) :
    DailyMetrics → DailyMetrics
  | [] => [r]
  | s :: rest =>
    if str_le r.1 s.1 then r :: s :: rest else s :: insert_by_date r rest

/-- `df.sort_index()` (stable; the row dates are unique dict keys). -/
def sort_by_date : DailyMetrics → DailyMetrics
  | [] => []
  | r :: rest => insert_by_date r (sort_by_date rest)

/-- Keep the first occurrence of every element (Mathlib `List.dedup` keeps
the last one, which is not the pandas column order). -/
def first_dedup (l : List String) : List String :=
  l.foldl (fun acc x => if acc.contains x then acc else acc ++ [x]) []

/-- `df.columns` of `pd.DataFrame.from_dict(daily_metrics, orient='index')`:
every metric name, in order of first appearance. -/
def columns_of (dm : DailyMetrics) : List String :=
  first_dedup (dm.flatMap (fun r => r.2.map Prod.fst))

/-- `df[column].dropna()` after sorting by date: the chronological list of
the non-null values of one column (a missing key is NaN). -/
def col_series (dm : DailyMetrics) (c : String) : List ℚ :=
  (sort_by_date dm).filterMap (fun r => lookup_str r.2 c)

/-- Centered cross-product `sum((x - mean xs) * (y - mean ys))`, the shared
building block of linregress and Pearson correlation. -/
def centered_dot (xs ys : List ℚ) : ℚ :=
  ((xs.zip ys).map (fun p => (p.1 - mean xs) * (p.2 - mean ys))).sum

/-- One `{column}_trend` value: slope, R², p-value, significance. -/
structure TrendEntry where
  slope : ℚ
  r_squared : ℚ
  p_value : ℚ
  significant : Bool
deriving DecidableEq

/-- A value of the `trend_metrics` dict: either a `{column}_trend` record or
a `{column}_pct_change` float. -/
inductive TrendVal where
  | trend (e : TrendEntry)
  | pct (q : ℚ)
deriving DecidableEq

/-- `scipy.stats.linregress(x, y)` with `x = np.arange(len(y))`, by its
ordinary-least-squares closed forms: slope `= Sxy / Sxx` and
`r2 = Sxy ^ 2 / (Sxx * Syy)` (with r = 0 when a variance vanishes — for
`n ≥ 3` only `Syy = 0` can occur). The p-value is a transcendental function
of the t-distribution and is supplied as an oracle `pval` taking the sample
size and r²; `significant = bool(p_value < 0.05)`. -/
def lin_entry (pval : ℕ → ℚ → ℚ) (ys : List ℚ) : TrendEntry :=
  let xs : List ℚ := (List.range ys.length).map (fun i => (i : ℚ))
  let sxx := centered_dot xs xs
  let syy := centered_dot ys ys
  let sxy := centered_dot xs ys
  let r2 := if syy = 0 then 0 else sxy ^ 2 / (sxx * syy)
  { slope := sxy / sxx
    r_squared := r2
    p_value := pval ys.length r2
    significant := decide (pval ys.length r2 < 1/20) }

/-- The `trend_metrics` entries contributed by one column: nothing below 3
non-null points; otherwise the `{column}_trend` record, plus
`{column}_pct_change = (y[-1] - y[0]) / y[0] * 100` when `len(y) > 1` and
`y[0] != 0`. -/
def trend_of_column (pval : ℕ → ℚ → ℚ) (dm : DailyMetrics) (c : String) :
    List (String × TrendVal) :=
  let ys := col_series dm c
  if 3 ≤ ys.length then
    (c ++ "_trend", TrendVal.trend (lin_entry pval ys)) ::
      (if 1 < ys.length ∧ ys.headI ≠ 0 then
        [(c ++ "_pct_change",
          TrendVal.pct ((ys.getLastD 0 - ys.headI) / ys.headI * 100))]
      else [])
  else []

/-- `_calculate_trend_metrics`: the `trend_metrics` dict over all columns. -/
def calculate_trend_metrics (pval : ℕ → ℚ → ℚ) (dm : DailyMetrics) :
    List (String × TrendVal) :=
  (columns_of dm).flatMap (trend_of_column pval dm)

/-- The non-null values of one column paired with the 0-based index of the
day (row) they sit on, in date order. This is the regressor the
specification describes (value against day-index); the code instead uses
`np.arange` over the compacted non-null series. -/
def col_series_with_day_index (dm : DailyMetrics) (c : String) :
    List (ℚ × ℚ) :=
  (sort_by_date dm).enum.filterMap
    (fun p => (lookup_str p.2.2 c).map (fun v => ((p.1 : ℚ), v)))

/-- Ordinary-least-squares slope of a list of points. -/
def ols_slope_points (ps : List (ℚ × ℚ)) : ℚ :=
  centered_dot (ps.map Prod.fst) (ps.map Prod.snd) /
    centered_dot (ps.map Prod.fst) (ps.map Prod.fst)

/-- The trend slope as worded by the specification (modelled from the spec
wording for comparison against `lin_entry`): ordinary least-squares
regression of the values against the 0-based day-index in chronological
order. -/
def spec_slope_day_index (dm : DailyMetrics) (c : String) : ℚ :=
  ols_slope_points (col_series_with_day_index dm c)

/-- The rows of the unsorted correlation frame on which both columns are
non-null (`_calculate_correlation_metrics` builds its DataFrame without
sorting; pairwise sums do not depend on row order). -/
def overlap (dm : DailyMetrics) (a b : String) : List (ℚ × ℚ) :=
  dm.filterMap (fun r =>
    match lookup_str r.2 a, lookup_str r.2 b with
    | some x, some y => some (x, y)
    | _, _ => none)

/-- One entry of `df.corr(method='pearson', min_periods=3)`, followed by the
`float(val) if not np.isnan(val) else None` conversion. pandas computes each
pair (including the diagonal) over the co-occurring rows: fewer than
`min_periods` of them, or a vanishing variance divisor, give NaN (`none`).
The Pearson value `r = Sxy / sqrt(Sxx * Syy)` is irrational in general, so
the entry is represented exactly by the signed square `sign(r) * r ^ 2`, an
order-preserving bijective recoding of `r`: `r = 1` iff the code is `1`,
`abs r > 0.5` iff the code exceeds `1/4` in absolute value, `abs r > 0.7`
iff it exceeds `49/100`. -/
def corr_entry (dm : DailyMetrics) (a b : String) : Option ℚ :=
  let ps := overlap dm a b
  if ps.length < 3 then none
  else
    let sxx := centered_dot (ps.map Prod.fst) (ps.map Prod.fst)
    let syy := centered_dot (ps.map Prod.snd) (ps.map Prod.snd)
    let sxy := centered_dot (ps.map Prod.fst) (ps.map Prod.snd)
    if sxx * syy = 0 then none
    else some ((if sxy < 0 then -1 else 1) * sxy ^ 2 / (sxx * syy))

/-- The nested `correlations_dict` (column → column → entry). -/
def corr_matrix_of (dm : DailyMetrics) :
    List (String × List (String × Option ℚ)) :=
  (columns_of dm).map (fun a =>
    (a, (columns_of dm).map (fun b => (b, corr_entry dm a b))))

/-- One element of `important_correlations`. The `corr` field carries the
signed-square representation of the stored float. -/
structure ImpCorr where
  metric1 : String
  metric2 : String
  corr : ℚ
  strength : String
deriving DecidableEq

/-- The ordered upper-triangle pairs `(i, j)` with `i < j` of the column
list, as iterated by the nested loops of `_calculate_correlation_metrics`. -/
def upper_pairs : List String → List (String × String)
  | [] => []
  | c :: rest => rest.map (fun d => (c, d)) ++ upper_pairs rest

/-- `important_correlations`: upper-triangle pairs whose entry is non-NaN
with `abs(corr_value) > 0.5`, tagged `strong` when `abs(corr_value) > 0.7`
else `moderate` (thresholds on the signed square: 1/4 and 49/100). -/
def important_correlations (dm : DailyMetrics) : List ImpCorr :=
  (upper_pairs (columns_of dm)).filterMap (fun p =>
    match corr_entry dm p.1 p.2 with
    | none => none
    | some v =>
      if 1/4 < |v| then
        some ⟨p.1, p.2, v, if 49/100 < |v| then "strong" else "moderate"⟩
      else none)

/-- `_calculate_correlation_metrics`: `none` models the early `return {}`
when the frame is empty or has fewer than 2 columns. -/
def calculate_correlation_metrics (dm : DailyMetrics) :
    Option (List (String × List (String × Option ℚ)) × List ImpCorr) :=
  if dm.isEmpty || (columns_of dm).length < 2 then none
  else some (corr_matrix_of dm, important_correlations dm)

/-- Minimum of a value list (`min(values)` on a nonempty list). -/
def list_min : List ℚ → ℚ
  | [] => 0
  | x :: xs => xs.foldl min x

/-- Maximum of a value list (`max(values)` on a nonempty list). -/
def list_max : List ℚ → ℚ
  | [] => 0
  | x :: xs => xs.foldl max x

/-- The fixed `metrics_to_avg` list of `_calculate_average_metrics`. -/
def metrics_to_avg : List String :=
  ["steps", "resting_hr", "avg_hr", "sleep_duration", "deep_sleep",
   "avg_stress", "avg_hrv", "avg_body_battery", "avg_spo2"]

/-- `_calculate_average_metrics`: `avg_/min_/max_` per metric with at least
one value across days, plus `deep_sleep_ratio` when both operands are present
and the average sleep duration is positive. -/
def calculate_average_metrics (dm : DailyMetrics) : List (String × ℚ) :=
  let base := metrics_to_avg.flatMap (fun m =>
    let vals := dm.filterMap (fun r => lookup_str r.2 m)
    if vals.isEmpty then []
    else [("avg_" ++ m, mean vals), ("min_" ++ m, list_min vals),
          ("max_" ++ m, list_max vals)])
  match lookup_str base "avg_sleep_duration",
      lookup_str base "avg_deep_sleep" with
  | some sd, some ds =>
    if 0 < sd then base ++ [("deep_sleep_ratio", ds / sd)] else base
  | _, _ => base

/-- The per-window metrics bundle `{**avg_metrics, **trend_metrics,
**correlation_metrics}`; the three key spaces are disjoint, so the merged
dict is modelled by the triple of its parts. -/
structure MetricsBundle where
  averages : List (String × ℚ)
  trends : List (String × TrendVal)
  correlations :
    Option (List (String × List (String × Option ℚ)) × List ImpCorr)

/-- All the metrics computed for one window of data. -/
def metrics_bundle_of (pval : ℕ → ℚ → ℚ) (ud : UserData) : MetricsBundle :=
  let dm := calculate_daily_metrics ud
  ⟨calculate_average_metrics dm, calculate_trend_metrics pval dm,
    calculate_correlation_metrics dm⟩

/-! ## Telemetry Normalizer (`_save_to_timescale`, row construction)

Timestamps are represented symbolically: `Ts.base s m` is the instant of the
parsed base date string `s` with its microsecond field replaced by `m`
(`timestamp.replace(microsecond=offset)`); the time-series branch can instead
derive an epoch instant or an ISO instant from the entry itself. The partial
`datetime.fromisoformat` applied to embedded string timestamps is supplied as
an oracle `parse_iso` returning a canonical instant string on success. -/

/-- A row timestamp as synthesized by the normalizer. -/
inductive Ts where
  | base (s : String) (micro : ℕ)
  | epochMs (v : ℚ)
  | epochS (v : ℚ)
  | iso (s : String)
deriving DecidableEq

/-- The base timestamp string for one normalization call: the date with its
timezone completed (`date.replace('Z', '+00:00')` when time and zone are
present, else `f"{date}T00:00:00+00:00"`). The date string always parses
because callers pass `date.isoformat()`. -/
def base_str (date : String) : String :=
  if date.data.contains 'T' && (date.data.contains '+' || date.data.contains 'Z') then
    date.replace "Z" "+00:00"
  else date ++ "T00:00:00+00:00"

/-- One row headed for the `biometric_data` table (the `created_at` column is
database-defaulted metadata and not part of the row payload). -/
structure Row where
  user_id : ℕ
  ts : Ts
  data_type : String
  metric_name : String
  value : Json
  raw : Option Json

/-- Is a Python value a container (`isinstance(value, (dict, list))`)? -/
def is_container : Json → Bool
  | .obj _ => true
  | .arr _ => true
  | _ => false

/-- Is a Python value `None` (`value is None`)? -/
def is_null : Json → Bool
  | .null => true
  | _ => false

/-- Top-level scalar rows of the dict branch: one row per non-container key,
value `json.dumps({key: value})`, each at the base timestamp with the next
microsecond offset (`(offset + 1) % 1000000`). -/
def dict_scalar_rows (uid : ℕ) (base dt : String) (raw : Option Json) :
    List (String × Json) → ℕ → List Row × ℕ
  | [], m => ([], m)
  | (k, v) :: rest, m =>
    if is_container v then dict_scalar_rows uid base dt raw rest m
    else
      let r : Row := ⟨uid, Ts.base base m, dt, dt ++ "." ++ k,
        Json.obj [(k, v)], raw⟩
      let next := dict_scalar_rows uid base dt raw rest ((m + 1) % 1000000)
      (r :: next.1, next.2)

/-- The sleep-duration field names hoisted by the sleep special case. -/
def sleep_fields : List String :=
  ["sleepTimeSeconds", "totalSleepTimeSeconds", "deepSleepSeconds",
   "napTimeSeconds"]

/-- Hoist the sleep fields found inside one nested dict value
(`if field in value and value[field] is not None`). -/
def sleep_nested_rows (uid : ℕ) (base dt : String) (raw : Option Json)
    (v : List (String × Json)) : List String → ℕ → List Row × ℕ
  | [], m => ([], m)
  | f :: fs, m =>
    match lookup_str v f with
    | some x =>
      if is_null x then sleep_nested_rows uid base dt raw v fs m
      else
        let r : Row := ⟨uid, Ts.base base m, dt, dt ++ "." ++ f,
          Json.obj [(f, x)], raw⟩
        let next := sleep_nested_rows uid base dt raw v fs ((m + 1) % 1000000)
        (r :: next.1, next.2)
    | none => sleep_nested_rows uid base dt raw v fs m

/-- First sleep loop: over every top-level key whose value is a dict, hoist
the sleep fields found inside it. -/
def sleep_dict_rows (uid : ℕ) (base dt : String) (raw : Option Json) :
    List (String × Json) → ℕ → List Row × ℕ
  | [], m => ([], m)
  | (_, v) :: rest, m =>
    match v with
    | .obj fields =>
      let inner := sleep_nested_rows uid base dt raw fields sleep_fields m
      let next := sleep_dict_rows uid base dt raw rest inner.2
      (inner.1 ++ next.1, next.2)
    | _ => sleep_dict_rows uid base dt raw rest m

/-- Second sleep loop: sleep fields appearing as non-container, non-null
top-level values of the payload itself. -/
def sleep_top_rows (uid : ℕ) (base dt : String) (raw : Option Json)
    (data : List (String × Json)) : List String → ℕ → List Row × ℕ
  | [], m => ([], m)
  | f :: fs, m =>
    match lookup_str data f with
    | some x =>
      if is_null x || is_container x then
        sleep_top_rows uid base dt raw data fs m
      else
        let r : Row := ⟨uid, Ts.base base m, dt, dt ++ "." ++ f,
          Json.obj [(f, x)], raw⟩
        let next := sleep_top_rows uid base dt raw data fs ((m + 1) % 1000000)
        (r :: next.1, next.2)
    | none => sleep_top_rows uid base dt raw data fs m

/-- The sleep special case of the dict branch (runs only for
`data_type == 'sleep'`). -/
def sleep_rows (uid : ℕ) (base dt : String) (raw : Option Json)
    (data : List (String × Json)) (m : ℕ) : List Row × ℕ :=
  if dt = "sleep" then
    let a := sleep_dict_rows uid base dt raw data m
    let b := sleep_top_rows uid base dt raw data sleep_fields a.2
    (a.1 ++ b.1, b.2)
  else ([], m)

/-- Timestamp auto-detection for one time-series entry head: a number above
`10^12` is a millisecond epoch, above `10^9` a second epoch; a string is
parsed as ISO-8601 (`Z` rewritten to `+00:00`) through the `parse_iso`
oracle; anything else (including Python bool, an int whose value 0/1 passes
neither magnitude test) leaves the entry without its own timestamp. -/
def parse_entry_ts (parse_iso : String → Option String) : Json → Option Ts
  | .num q =>
    if 1000000000000 < q then some (Ts.epochMs q)
    else if 1000000000 < q then some (Ts.epochS q)
    else none
  | .str s => (parse_iso (s.replace "Z" "+00:00")).map Ts.iso
  | _ => none

/-- Rows for the entries of one recognized time-series array: entries that
are lists of length ≥ 2 produce one row each, value
`{"value": entry[1:] if len(entry) > 2 else entry[1]}`, at the embedded
timestamp when one parses, else at the base timestamp with the next
microsecond offset (the offset advances only on that fallback). -/
def series_entry_rows (parse_iso : String → Option String) (uid : ℕ)
    (base dt sname : String) (raw : Option Json) :
    List Json → ℕ → List Row × ℕ
  | [], m => ([], m)
  | e :: es, m =>
    match e with
    | .arr (e0 :: e1 :: erest) =>
      let payload := Json.obj
        [("value", if erest.isEmpty then e1 else Json.arr (e1 :: erest))]
      match parse_entry_ts parse_iso e0 with
      | some t =>
        let r : Row := ⟨uid, t, dt, dt ++ "." ++ sname, payload, raw⟩
        let next := series_entry_rows parse_iso uid base dt sname raw es m
        (r :: next.1, next.2)
      | none =>
        let r : Row := ⟨uid, Ts.base base m, dt, dt ++ "." ++ sname, payload,
          raw⟩
        let next := series_entry_rows parse_iso uid base dt sname raw es
          ((m + 1) % 1000000)
        (r :: next.1, next.2)
    | _ => series_entry_rows parse_iso uid base dt sname raw es m

/-- Third loop of the dict branch: every top-level array-valued key whose
name ends in `Values` or `ValuesArray` is expanded; the series name strips
those suffixes everywhere (`str.replace` replaces all occurrences). -/
def series_rows (parse_iso : String → Option String) (uid : ℕ)
    (base dt : String) (raw : Option Json) :
    List (String × Json) → ℕ → List Row × ℕ
  | [], m => ([], m)
  | (k, v) :: rest, m =>
    match v with
    | .arr entries =>
      if ends_with k "Values" || ends_with k "ValuesArray" then
        let sname := (k.replace "ValuesArray" "").replace "Values" ""
        let a := series_entry_rows parse_iso uid base dt sname raw entries m
        let next := series_rows parse_iso uid base dt raw rest a.2
        (a.1 ++ next.1, next.2)
      else series_rows parse_iso uid base dt raw rest m
    | _ => series_rows parse_iso uid base dt raw rest m

/-- Item rows of the list branch (`{data_type}.item_{i}`, the item stored
as-is), produced only when the list has at most 250 elements. -/
def list_item_rows (uid : ℕ) (base dt : String) (raw : Option Json) :
    List Json → ℕ → ℕ → List Row
  | [], _, _ => []
  | x :: xs, i, m =>
    ⟨uid, Ts.base base m, dt, dt ++ ".item_" ++ toString i, x, raw⟩ ::
      list_item_rows uid base dt raw xs (i + 1) ((m + 1) % 1000000)

/-- The rows produced by one `_save_to_timescale(user_id, date, data_type,
data)` call. A `None` payload writes nothing; a dict payload produces the
top-level scalar rows, the sleep hoists and the time-series expansions, all
sharing `raw_payload = json.dumps(data)`; a list payload produces a count
row and (for ≤ 250 elements) item rows sharing the same raw payload; any
other payload produces one `{data_type}.value` row — whose `raw_data` is
`json.dumps(data) if isinstance(data, (dict, list)) else None`, that is,
`None` on this branch. -/
def save_to_timescale_rows (parse_iso : String → Option String) (uid : ℕ)
    (date dt : String) (data : Json) : List Row :=
  let base := base_str date
  match data with
  | .null => []
  | .obj fields =>
    let raw := some (Json.obj fields)
    let a := dict_scalar_rows uid base dt raw fields 0
    let b := sleep_rows uid base dt raw fields a.2
    let c := series_rows parse_iso uid base dt raw fields b.2
    a.1 ++ b.1 ++ c.1
  | .arr items =>
    let raw := some (Json.arr items)
    let count : Row := ⟨uid, Ts.base base 0, dt, dt ++ ".count",
      Json.obj [("count", Json.num items.length)], raw⟩
    count ::
      (if items.length ≤ 250 then list_item_rows uid base dt raw items 0 1
       else [])
  | other =>
    [⟨uid, Ts.base base 0, dt, dt ++ ".value",
      Json.obj [("value", other)], none⟩]

/-! ## Time-Series Store upsert -/

/-- The natural key `(user_id, timestamp, data_type, metric_name)` of the
`biometric_data` uniqueness constraint. -/
abbrev RowKey := ℕ × Ts × String × String

/-- The key of a row. -/
def key_of (r : Row) : RowKey := (r.user_id, r.ts, r.data_type, r.metric_name)

/-- The store contents visible through the natural key: the `value` and
`raw_data` columns. -/
abbrev Store := RowKey → Option (Json × Option Json)

/-- The `ON CONFLICT ... DO UPDATE SET value = EXCLUDED.value, raw_data =
EXCLUDED.raw_data` batch upsert: each row inserts or overwrites at its key
(`created_at` is refreshed metadata outside the modelled row payload). -/
def upsert (s : Store) (rows : List Row) : Store :=
  rows.foldl
    (fun s r => fun k => if k = key_of r then some (r.value, r.raw) else s k)
    s

/-- The last row of a batch writing a given key, if any. -/
def last_write : List Row → RowKey → Option Row
  | [], _ => none
  | r :: rs, k =>
    match last_write rs k with
    | some r2 => some r2
    | none => if key_of r = k then some r else none

/-! ## Job Queue and Processor -/

/-- Job lifecycle states (`analytics_jobs.status`). -/
inductive JobStatus where
  | pending
  | processing
  | completed
  | failed
deriving DecidableEq

/-- The status column of the jobs table, by job id. -/
abbrev StatusMap := ℕ → JobStatus

/-- `_update_job_status(job_id, status)`. -/
def set_status (m : StatusMap) (id : ℕ) (s : JobStatus) : StatusMap :=
  fun k => if k = id then s else m k

/-- One `AnalyticsResult` row (`user_analytics`); `metrics` is the combined
bundle serialized to JSONB. -/
structure AnalyticsResult where
  user_id : ℕ
  analytics_type : String
  time_range : String
  start_date : String
  end_date : String
  metrics : MetricsBundle

/-- `_save_analytics_results` reports success: `if not results: return False`,
and otherwise the upsert loop commits and returns `True` (database faults are
outside the model). -/
def save_analytics_results_ok (results : List AnalyticsResult) : Bool :=
  !results.isEmpty

/-- `_process_job`: mark processing, run the computation (an `Except` models
an uncaught Python exception reaching the handler at the end of
`_process_job`), then mark completed when saving reports success, else mark
failed; an exception also marks failed. -/
def process_job (compute : ℕ → Except Unit (List AnalyticsResult))
    (m : StatusMap) (job : ℕ × ℕ) : StatusMap :=
  let m1 := set_status m job.1 JobStatus.processing
  match compute job.2 with
  | .error _ => set_status m1 job.1 JobStatus.failed
  | .ok results =>
    if save_analytics_results_ok results then
      set_status m1 job.1 JobStatus.completed
    else set_status m1 job.1 JobStatus.failed

/-- One drain cycle of `run_processor`: `for job in jobs:
self._process_job(job)` over the pending snapshot, given as
`(id, user_id)` pairs; `_process_job` never raises. -/
def run_processor_drain (compute : ℕ → Except Unit (List AnalyticsResult))
    (m : StatusMap) (jobs : List (ℕ × ℕ)) : StatusMap :=
  jobs.foldl (process_job compute) m

/-- The fixed trailing windows of `_calculate_analytics`. -/
def time_ranges : List (String × ℕ) :=
  [("week", 7), ("month", 30), ("quarter", 90)]

/-- `_calculate_analytics(user_id)`: for each window, fetch
`(user_data, start_date, end_date)` (the fetch is the `_get_user_data`
database read, supplied as a function of `days_back`; a failed read yields
an empty dict and `None` dates); skip the window when the data dict is empty
or either date is missing; otherwise append one result holding the combined
metrics bundle. -/
def calculate_analytics (pval : ℕ → ℚ → ℚ)
    (fetch : ℕ → UserData × Option String × Option String) (uid : ℕ) :
    List AnalyticsResult :=
  time_ranges.filterMap (fun w =>
    let r := fetch w.2
    if r.1.isEmpty then none
    else
      match r.2.1, r.2.2 with
      | some sd, some ed =>
        some ⟨uid, "biometric", w.1, sd, ed, metrics_bundle_of pval r.1⟩
      | _, _ => none)

/-! ## Concrete instances used by the counterexamples and witnesses -/

/-- The non-null values of one column in frame-row order (unsorted), used to
state the diagonal behaviour of the correlation matrix. -/
def col_values (dm : DailyMetrics) (c : String) : List ℚ :=
  dm.filterMap (fun r => lookup_str r.2 c)

/-- Four days of extracted metrics where column `a` is null on the third day
(the day exists in the frame because column `b` has a value there): the
non-null values of `a` are 1, 2, 10 on day-indices 0, 1, 3. -/
def dmC4 : DailyMetrics :=
  [("2024-01-01", [("a", 1)]), ("2024-01-02", [("a", 2)]),
   ("2024-01-03", [("b", 5)]), ("2024-01-04", [("a", 10)])]

/-- Two metric columns where `a` has only 2 non-null days while `b` has 3
non-constant values: pandas corr with `min_periods=3` makes the diagonal
entry for `a` NaN. -/
def dmC6 : DailyMetrics :=
  [("2024-01-01", [("a", 1), ("b", 1)]), ("2024-01-02", [("a", 2), ("b", 3)]),
   ("2024-01-03", [("b", 5)])]

/-- Two columns co-occurring on only 2 days. -/
def dmC5 : DailyMetrics :=
  [("2024-01-01", [("a", 1), ("b", 1)]), ("2024-01-02", [("a", 2), ("b", 2)])]

/-- A concrete analytics result used by the processor witness. -/
def c8_result : AnalyticsResult :=
  ⟨2, "biometric", "week", "2024-01-01", "2024-01-07", ⟨[], [], none⟩⟩

/-- A concrete computation where user 0 raises and every other user succeeds
with one result. -/
def c8_compute (u : ℕ) : Except Unit (List AnalyticsResult) :=
  if u = 0 then Except.error () else Except.ok [c8_result]

/-! ## Lemmas about the keyed upsert -/

/-- Pointwise description of a batch upsert: the last row of the batch
writing a key wins, otherwise the store is unchanged. -/
theorem upsert_apply (s : Store) (rows : List Row) (k : RowKey) :
    upsert s rows k =
      (match last_write rows k with
       | some r => some (r.value, r.raw)
       | none => s k) := by
  induction rows generalizing s with
  | nil => rfl
  | cons r rs ih =>
    show upsert (fun k2 => if k2 = key_of r then some (r.value, r.raw)
        else s k2) rs k = _
    rw [ih]
    cases h : last_write rs k with
    | some r2 => simp [last_write, h]
    | none =>
      simp only [last_write, h]
      by_cases hk : key_of r = k
      · subst hk; simp
      · have : ¬(k = key_of r) := fun he => hk he.symm
        simp [this, hk]

/-- Upserting the same batch twice leaves the store exactly as after one
upsert. -/
theorem upsert_twice (s : Store) (rows : List Row) :
    upsert (upsert s rows) rows = upsert s rows := by
  funext k
  rw [upsert_apply, upsert_apply]
  cases h : last_write rows k with
  | some r => simp
  | none => simp [upsert_apply, h]

/-- C7: Normalizing the same `(data_type, day, payload)` input twice and
upserting both times yields exactly the same stored row set as normalizing
and upserting once: the normalizer is a pure function of its inputs, so the
second run regenerates the same `(user_id, timestamp, data_type,
metric_name)` keys, and the keyed upsert overwrites the existing rows instead
of adding new ones. -/
theorem normalize_upsert_idempotent (parse_iso : String → Option String)
    (s : Store) (uid : ℕ) (date dt : String) (payload : Json) :
    upsert (upsert s (save_to_timescale_rows parse_iso uid date dt payload))
        (save_to_timescale_rows parse_iso uid date dt payload)
      = upsert s (save_to_timescale_rows parse_iso uid date dt payload) :=
  upsert_twice s (save_to_timescale_rows parse_iso uid date dt payload)

/-! ## Lemmas about the raw payload of normalized rows -/

/-- Every top-level scalar row carries the shared raw payload. -/
theorem dict_scalar_rows_raw (uid : ℕ) (base dt : String) (raw : Option Json)
    (kvs : List (String × Json)) (m : ℕ) :
    ∀ r ∈ (dict_scalar_rows uid base dt raw kvs m).1, r.raw = raw := by
  induction kvs generalizing m with
  | nil => intro r hr; cases hr
  | cons kv rest ih =>
    intro r hr
    by_cases hc : is_container kv.2
    · exact ih _ r (by simpa [dict_scalar_rows, hc] using hr)
    · rcases (by simpa [dict_scalar_rows, hc] using hr :
          r = ⟨uid, Ts.base base m, dt, dt ++ "." ++ kv.1,
            Json.obj [(kv.1, kv.2)], raw⟩ ∨
          r ∈ (dict_scalar_rows uid base dt raw rest ((m + 1) % 1000000)).1)
          with h | h
      · rw [h]
      · exact ih _ r h

/-- Every nested-sleep hoist row carries the shared raw payload. -/
theorem sleep_nested_rows_raw (uid : ℕ) (base dt : String) (raw : Option Json)
    (v : List (String × Json)) (fs : List String) (m : ℕ) :
    ∀ r ∈ (sleep_nested_rows uid base dt raw v fs m).1, r.raw = raw := by
  induction fs generalizing m with
  | nil => intro r hr; cases hr
  | cons f fs ih =>
    intro r hr
    cases hl : lookup_str v f with
    | none => exact ih _ r (by simpa [sleep_nested_rows, hl] using hr)
    | some x =>
      by_cases hn : is_null x
      · exact ih _ r (by simpa [sleep_nested_rows, hl, hn] using hr)
      · rcases (by simpa [sleep_nested_rows, hl, hn] using hr :
            r = ⟨uid, Ts.base base m, dt, dt ++ "." ++ f,
              Json.obj [(f, x)], raw⟩ ∨
            r ∈ (sleep_nested_rows uid base dt raw v fs
              ((m + 1) % 1000000)).1) with h | h
        · rw [h]
        · exact ih _ r h

/-- Every row of the first sleep loop carries the shared raw payload. -/
theorem sleep_dict_rows_raw (uid : ℕ) (base dt : String) (raw : Option Json)
    (kvs : List (String × Json)) (m : ℕ) :
    ∀ r ∈ (sleep_dict_rows uid base dt raw kvs m).1, r.raw = raw := by
  induction kvs generalizing m with
  | nil => intro r hr; cases hr
  | cons kv rest ih =>
    intro r hr
    cases hv : kv.2 with
    | obj fields =>
      rcases (by
          simpa [sleep_dict_rows, hv] using hr :
          r ∈ (sleep_nested_rows uid base dt raw fields sleep_fields m).1 ∨
          r ∈ (sleep_dict_rows uid base dt raw rest
            (sleep_nested_rows uid base dt raw fields sleep_fields m).2).1)
          with h | h
      · exact sleep_nested_rows_raw uid base dt raw fields sleep_fields m r h
      · exact ih _ r h
    | null => exact ih _ r (by simpa [sleep_dict_rows, hv] using hr)
    | bool b => exact ih _ r (by simpa [sleep_dict_rows, hv] using hr)
    | num q => exact ih _ r (by simpa [sleep_dict_rows, hv] using hr)
    | str s2 => exact ih _ r (by simpa [sleep_dict_rows, hv] using hr)
    | arr items => exact ih _ r (by simpa [sleep_dict_rows, hv] using hr)

/-- Every row of the second sleep loop carries the shared raw payload. -/
theorem sleep_top_rows_raw (uid : ℕ) (base dt : String) (raw : Option Json)
    (data : List (String × Json)) (fs : List String) (m : ℕ) :
    ∀ r ∈ (sleep_top_rows uid base dt raw data fs m).1, r.raw = raw := by
  induction fs generalizing m with
  | nil => intro r hr; cases hr
  | cons f fs ih =>
    intro r hr
    cases hl : lookup_str data f with
    | none => exact ih _ r (by simpa [sleep_top_rows, hl] using hr)
    | some x =>
      by_cases hn : is_null x || is_container x
      · exact ih _ r (by simpa [sleep_top_rows, hl, hn] using hr)
      · rcases (by simpa [sleep_top_rows, hl, hn] using hr :
            r = ⟨uid, Ts.base base m, dt, dt ++ "." ++ f,
              Json.obj [(f, x)], raw⟩ ∨
            r ∈ (sleep_top_rows uid base dt raw data fs
              ((m + 1) % 1000000)).1) with h | h
        · rw [h]
        · exact ih _ r h

/-- Every sleep-hoist row carries the shared raw payload. -/
theorem sleep_rows_raw (uid : ℕ) (base dt : String) (raw : Option Json)
    (data : List (String × Json)) (m : ℕ) :
    ∀ r ∈ (sleep_rows uid base dt raw data m).1, r.raw = raw := by
  intro r hr
  by_cases hdt : dt = "sleep"
  · rcases (by simpa [sleep_rows, hdt] using hr :
        r ∈ (sleep_dict_rows uid base dt raw data m).1 ∨
        r ∈ (sleep_top_rows uid base dt raw data sleep_fields
          (sleep_dict_rows uid base dt raw data m).2).1) with h | h
    · exact sleep_dict_rows_raw uid base dt raw data m r h
    · exact sleep_top_rows_raw uid base dt raw data sleep_fields _ r h
  · simp [sleep_rows, hdt] at hr

/-- Every time-series entry row carries the shared raw payload. -/
theorem series_entry_rows_raw (parse_iso : String → Option String) (uid : ℕ)
    (base dt sname : String) (raw : Option Json) (entries : List Json)
    (m : ℕ) :
    ∀ r ∈ (series_entry_rows parse_iso uid base dt sname raw entries m).1,
      r.raw = raw := by
  induction entries generalizing m with
  | nil => intro r hr; cases hr
  | cons e es ih =>
    intro r hr
    match e with
    | .arr (e0 :: e1 :: erest) =>
      cases ht : parse_entry_ts parse_iso e0 with
      | some t =>
        rcases (by simpa [series_entry_rows, ht] using hr : r = _ ∨ _)
            with h | h
        · rw [h]
        · exact ih _ r h
      | none =>
        rcases (by simpa [series_entry_rows, ht] using hr : r = _ ∨ _)
            with h | h
        · rw [h]
        · exact ih _ r h
    | .arr [] => exact ih _ r (by simpa [series_entry_rows] using hr)
    | .arr [e0] => exact ih _ r (by simpa [series_entry_rows] using hr)
    | .null => exact ih _ r (by simpa [series_entry_rows] using hr)
    | .bool b => exact ih _ r (by simpa [series_entry_rows] using hr)
    | .num q => exact ih _ r (by simpa [series_entry_rows] using hr)
    | .str s2 => exact ih _ r (by simpa [series_entry_rows] using hr)
    | .obj fields => exact ih _ r (by simpa [series_entry_rows] using hr)

/-- Every row of the time-series loop carries the shared raw payload. -/
theorem series_rows_raw (parse_iso : String → Option String) (uid : ℕ)
    (base dt : String) (raw : Option Json) (kvs : List (String × Json))
    (m : ℕ) :
    ∀ r ∈ (series_rows parse_iso uid base dt raw kvs m).1, r.raw = raw := by
  induction kvs generalizing m with
  | nil => intro r hr; cases hr
  | cons kv rest ih =>
    intro r hr
    match hv : kv.2 with
    | .arr entries =>
      by_cases hk : ends_with kv.1 "Values" || ends_with kv.1 "ValuesArray"
      · rcases (by simpa [series_rows, hv, hk] using hr :
            r ∈ (series_entry_rows parse_iso uid base dt
              ((kv.1.replace "ValuesArray" "").replace "Values" "") raw
              entries m).1 ∨
            r ∈ (series_rows parse_iso uid base dt raw rest
              (series_entry_rows parse_iso uid base dt
                ((kv.1.replace "ValuesArray" "").replace "Values" "") raw
                entries m).2).1) with h | h
        · exact series_entry_rows_raw parse_iso uid base dt _ raw entries m r h
        · exact ih _ r h
      · exact ih _ r (by simpa [series_rows, hv, hk] using hr)
    | .null => exact ih _ r (by simpa [series_rows, hv] using hr)
    | .bool b => exact ih _ r (by simpa [series_rows, hv] using hr)
    | .num q => exact ih _ r (by simpa [series_rows, hv] using hr)
    | .str s2 => exact ih _ r (by simpa [series_rows, hv] using hr)
    | .obj fields => exact ih _ r (by simpa [series_rows, hv] using hr)

/-- Every list-item row carries the shared raw payload. -/
theorem list_item_rows_raw (uid : ℕ) (base dt : String) (raw : Option Json)
    (items : List Json) (i m : ℕ) :
    ∀ r ∈ list_item_rows uid base dt raw items i m, r.raw = raw := by
  induction items generalizing i m with
  | nil => intro r hr; cases hr
  | cons x xs ih =>
    intro r hr
    rcases (by simpa [list_item_rows] using hr : r = _ ∨ _) with h | h
    · rw [h]
    · exact ih _ _ r h

/-- C9 (amended): every row produced for a dict or list payload carries the
same `raw_payload`, equal to the entire untouched input; a scalar payload
instead produces exactly one `{data_type}.value` row whose `raw_data` is
null, because the scalar branch serializes `data` for `raw_data` only when
it is a dict or list. -/
theorem raw_payload_amended (parse_iso : String → Option String) (uid : ℕ)
    (date dt : String) (payload : Json) :
    (is_container payload = true →
      ∀ r ∈ save_to_timescale_rows parse_iso uid date dt payload,
        r.raw = some payload) ∧
    (is_container payload = false → is_null payload = false →
      save_to_timescale_rows parse_iso uid date dt payload =
        [⟨uid, Ts.base (base_str date) 0, dt, dt ++ ".value",
          Json.obj [("value", payload)], none⟩]) := by
  constructor
  · intro hc r hr
    match payload with
    | .obj fields =>
      rcases (by simpa [save_to_timescale_rows] using hr :
          r ∈ (dict_scalar_rows uid (base_str date) dt
            (some (Json.obj fields)) fields 0).1 ∨
          r ∈ (sleep_rows uid (base_str date) dt (some (Json.obj fields))
            fields (dict_scalar_rows uid (base_str date) dt
              (some (Json.obj fields)) fields 0).2).1 ∨
          r ∈ (series_rows parse_iso uid (base_str date) dt
            (some (Json.obj fields)) fields
            (sleep_rows uid (base_str date) dt (some (Json.obj fields))
              fields (dict_scalar_rows uid (base_str date) dt
                (some (Json.obj fields)) fields 0).2).2).1)
          with h | h | h
      · exact dict_scalar_rows_raw uid _ dt _ fields 0 r h
      · exact sleep_rows_raw uid _ dt _ fields _ r h
      · exact series_rows_raw parse_iso uid _ dt _ fields _ r h
    | .arr items =>
      rcases (by simpa [save_to_timescale_rows] using hr : r = _ ∨ _)
          with h | h
      · rw [h]
      · by_cases hlen : items.length ≤ 250
        · exact list_item_rows_raw uid _ dt _ items 0 1 r
            (by simpa [hlen] using h)
        · simp [hlen] at h
    | .null => simp [is_container] at hc
    | .bool b => simp [is_container] at hc
    | .num q => simp [is_container] at hc
    | .str s2 => simp [is_container] at hc
  · intro hc hn
    match payload with
    | .bool b => rfl
    | .num q => rfl
    | .str s2 => rfl
    | .null => simp [is_null] at hn
    | .obj fields => simp [is_container] at hc
    | .arr items => simp [is_container] at hc

/-- C9 counterexample: normalizing the scalar payload `5` for the `stress`
family produces exactly one row, and its `raw_payload` is null, not the
input. -/
theorem raw_payload_cex :
    (save_to_timescale_rows (fun _ => none) 1 "2024-01-01" "stress"
      (Json.num 5)).map Row.raw = [none] ∧
    (none : Option Json) ≠ some (Json.num 5) := by
  exact ⟨rfl, by simp⟩

/-- C9 witness: the scalar clause of `raw_payload_amended` evaluated at the
payload `5`. -/
theorem raw_payload_witness :
    save_to_timescale_rows (fun _ => none) 1 "2024-01-01" "stress"
      (Json.num 5) =
    [⟨1, Ts.base (base_str "2024-01-01") 0, "stress", "stress" ++ ".value",
      Json.obj [("value", Json.num 5)], none⟩] :=
  (raw_payload_amended (fun _ => none) 1 "2024-01-01" "stress"
    (Json.num 5)).2 rfl rfl

/-! ## Job processor theorems -/

/-- C8: when the computation for one pending job raises, the drain cycle
marks exactly that job failed and still processes the next pending job,
which completes when its computation succeeds with a nonempty result list. -/
theorem job_failure_isolated (compute : ℕ → Except Unit (List AnalyticsResult))
    (m : StatusMap) (i j ui uj : ℕ) (rs : List AnalyticsResult)
    (hij : i ≠ j) (hui : compute ui = Except.error ())
    (huj : compute uj = Except.ok rs) (hrs : rs ≠ []) :
    run_processor_drain compute m [(i, ui), (j, uj)] i = JobStatus.failed ∧
    run_processor_drain compute m [(i, ui), (j, uj)] j = JobStatus.completed
    := by
  have hji : ¬(j = i) := fun h => hij h.symm
  have hempty : rs.isEmpty = false := by
    cases rs with
    | nil => exact absurd rfl hrs
    | cons a l => rfl
  constructor
  · simp [run_processor_drain, process_job, hui, huj,
      save_analytics_results_ok, hempty, set_status, hij, hji]
  · simp [run_processor_drain, process_job, hui, huj,
      save_analytics_results_ok, hempty, set_status, hij, hji]

/-- C8 witness: a drain over the concrete computation `c8_compute` (user 0
raises, user 5 succeeds) marks job 1 failed and job 2 completed. -/
theorem job_failure_isolated_witness :
    run_processor_drain c8_compute (fun _ => JobStatus.pending) [(1, 0), (2, 5)]
      1 = JobStatus.failed ∧
    run_processor_drain c8_compute (fun _ => JobStatus.pending) [(1, 0), (2, 5)]
      2 = JobStatus.completed :=
  job_failure_isolated c8_compute (fun _ => JobStatus.pending) 1 2 0 5
    [c8_result] (by decide) rfl rfl (by simp)

/-- C10: when the fetch returns an empty data dict for every trailing window
(no telemetry anywhere in the last 90 days), `_calculate_analytics` returns
the empty result list, `_save_analytics_results` reports failure on it, and
the job is marked failed rather than completed even though no computation
error occurred. -/
theorem empty_results_failed (pval : ℕ → ℚ → ℚ)
    (fetch : ℕ → UserData × Option String × Option String) (m : StatusMap)
    (jid uid : ℕ) (h : ∀ d, (fetch d).1 = []) :
    calculate_analytics pval fetch uid = [] ∧
    save_analytics_results_ok (calculate_analytics pval fetch uid) = false ∧
    run_processor_drain
      (fun u => Except.ok (calculate_analytics pval fetch u)) m
      [(jid, uid)] jid = JobStatus.failed := by
  have hempty : calculate_analytics pval fetch uid = [] := by
    simp [calculate_analytics, time_ranges, h]
  refine ⟨hempty, ?_, ?_⟩
  · rw [hempty]; rfl
  · simp [run_processor_drain, process_job, hempty,
      save_analytics_results_ok, set_status]

/-- Folding the interval item rows adds the interval sum to `total_steps`
and leaves `step_count` unchanged. -/
theorem steps_items_fold (items : List (String × ℕ))
    (h : ∀ p ∈ items,
      p.1 ≠ "steps.count" ∧ starts_with p.1 "steps.item_" = true)
    (sc ts : ℤ) :
    (items.map (fun p =>
        (p.1, PyVal.pval (Json.obj [("steps", Json.num (p.2 : ℚ))])))).foldl
      steps_row (sc, ts)
    = (sc, ts + (items.map (fun p => (p.2 : ℤ))).sum) := by
  induction items generalizing ts with
  | nil => simp
  | cons p rest ih =>
    have hp := h p (List.mem_cons_self p rest)
    have hrest : ∀ q ∈ rest,
        q.1 ≠ "steps.count" ∧ starts_with q.1 "steps.item_" = true :=
      fun q hq => h q (List.mem_cons_of_mem p hq)
    have hstep : steps_row (sc, ts)
        (p.1, PyVal.pval (Json.obj [("steps", Json.num (p.2 : ℚ))]))
        = (sc, ts + (p.2 : ℤ)) := by
      by_cases hz : (p.2 : ℚ) = 0
      · have hz2 : p.2 = 0 := by exact_mod_cast hz
        simp [steps_row, value_data, py_contains, py_get, lookup_str, truthy,
          py_int, hp.1, hp.2, hz, hz2]
      · have : rat_trunc ((p.2 : ℕ) : ℚ) = (p.2 : ℤ) := by
          simp [rat_trunc, Nat.cast_nonneg]
        simp [steps_row, value_data, py_contains, py_get, lookup_str, truthy,
          py_int, hp.1, hp.2, hz, this]
    rw [List.map_cons, List.foldl_cons, hstep, ih hrest]
    rw [List.map_cons, List.sum_cons]
    ring_nf

/-- C1: for a user-day of steps data holding one explicit daily-count row
and any set of interval item rows, the extracted steps value is the greater
of the daily count and the sum of the interval values. -/
theorem steps_max_of_count_and_intervals (c : ℕ)
    (items : List (String × ℕ))
    (h : ∀ p ∈ items,
      p.1 ≠ "steps.count" ∧ starts_with p.1 "steps.item_" = true) :
    steps_of_day
      (("steps.count", PyVal.pval (Json.obj [("count", Json.num (c : ℚ))])) ::
        items.map (fun p =>
          (p.1, PyVal.pval (Json.obj [("steps", Json.num (p.2 : ℚ))]))))
    = max (c : ℤ) ((items.map (fun p => (p.2 : ℤ))).sum) := by
  have hcount : steps_row (0, 0)
      ("steps.count", PyVal.pval (Json.obj [("count", Json.num (c : ℚ))]))
      = ((c : ℤ), 0) := by
    by_cases hz : (c : ℚ) = 0
    · have hz2 : c = 0 := by exact_mod_cast hz
      simp [steps_row, value_data, py_contains, py_get, lookup_str, truthy,
        py_int, hz, hz2]
    · have htr : rat_trunc ((c : ℕ) : ℚ) = (c : ℤ) := by
        simp [rat_trunc, Nat.cast_nonneg]
      simp [steps_row, value_data, py_contains, py_get, lookup_str, truthy,
        py_int, hz, htr]
  rw [steps_of_day, List.foldl_cons, hcount, steps_items_fold items h]
  simp

/-- C1 witness: a daily count of 9000 together with intervals summing to
9400 extracts 9400, the larger value. -/
theorem steps_max_witness :
    steps_of_day
      [("steps.count", PyVal.pval (Json.obj [("count", Json.num 9000)])),
       ("steps.item_0", PyVal.pval (Json.obj [("steps", Json.num 4000)])),
       ("steps.item_1", PyVal.pval (Json.obj [("steps", Json.num 5400)]))]
    = 9400 := by
  have h := steps_max_of_count_and_intervals 9000
    [("steps.item_0", 4000), ("steps.item_1", 5400)] (by decide)
  norm_num at h
  simpa using h

/-- C2 counterexample: a user-day of HRV data holding one row whose value
object carries both a `weeklyAvg` (50) and a `lastNightAvg` (60) field — both
values present on the day — extracts `avg_hrv = 50`, the rolling-week value,
not the recent-night value 60, because the per-row field matcher tests
`weeklyAvg` first. -/
theorem hrv_precedence_cex :
    py_get (Json.obj [("weeklyAvg", Json.num 50), ("lastNightAvg", Json.num 60)])
      "lastNightAvg" = some (Json.num 60) ∧
    avg_hrv_of_day [("hrv.item_0", PyVal.pval
      (Json.obj [("weeklyAvg", Json.num 50), ("lastNightAvg", Json.num 60)]))]
      = some 50 ∧
    (some (50 : ℚ) ≠ some (60 : ℚ)) := by
  refine ⟨rfl, ?_, by norm_num⟩
  simp [avg_hrv_of_day, hrv_agg, hrv_row, value_data, arm, py_contains,
    py_get, lookup_str, truthy, py_float]

/-- C2 (amended): the primary `avg_hrv` follows the fixed precedence
recent-night over rolling-week over readings over legacy when the recognized
fields arrive in separate rows (as the normalizer produces them, one
top-level key per row): for a day holding one `weeklyAvg` row and one
`lastNightAvg` row, in either order, extraction returns the recent-night
value. -/
theorem hrv_precedence_separate_rows (n1 n2 : String) (x y : ℚ)
    (hx : x ≠ 0) (hy : y ≠ 0) :
    avg_hrv_of_day [(n1, PyVal.pval (Json.obj [("weeklyAvg", Json.num y)])),
                    (n2, PyVal.pval (Json.obj [("lastNightAvg", Json.num x)]))]
      = some x ∧
    avg_hrv_of_day [(n2, PyVal.pval (Json.obj [("lastNightAvg", Json.num x)])),
                    (n1, PyVal.pval (Json.obj [("weeklyAvg", Json.num y)]))]
      = some x := by
  constructor <;>
    simp [avg_hrv_of_day, hrv_agg, hrv_row, value_data, arm, py_contains,
      py_get, lookup_str, truthy, py_float, hx, hy]

/-- C2 witness: recent-night 60 and rolling-week 50 in separate rows extract
60. -/
theorem hrv_precedence_witness :
    avg_hrv_of_day
      [("hrv.weeklyAvg", PyVal.pval (Json.obj [("weeklyAvg", Json.num 50)])),
       ("hrv.lastNightAvg", PyVal.pval
         (Json.obj [("lastNightAvg", Json.num 60)]))] = some 60 :=
  (hrv_precedence_separate_rows "hrv.weeklyAvg" "hrv.lastNightAvg" 60 50
    (by norm_num) (by norm_num)).1

/-- C3 counterexample: a present, numerically coercible stress reading of 0
is dropped by the truthiness guard (`value_data['avgStressLevel']` is falsy),
so the day gets no `avg_stress` entry — the claim said such a value is
included. The same happens to a body-battery reading of 0. -/
theorem zero_reading_dropped_cex :
    avg_stress_of_day [("stress.avgStressLevel", PyVal.pval
      (Json.obj [("avgStressLevel", Json.num 0)]))] = none ∧
    avg_body_battery_of_day [("body_battery.item_0", PyVal.pval
      (Json.obj [("bodyBatteryValue", Json.num 0)]))] = none := by
  constructor
  · simp [avg_stress_of_day, stress_row, value_data, arm, py_contains,
      py_get, lookup_str, truthy, py_float]
  · simp [avg_body_battery_of_day, body_battery_row, value_data, arm,
      py_contains, py_get, lookup_str, truthy, py_float]

/-- C3 (amended): during daily-metric extraction of the rate-style families,
a present value is included only when it is non-null, float-coercible and
truthy: a zero reading is dropped by the truthiness guard, a nonzero numeric
reading is coerced to float and included, and an absent day yields no entry
(absence is never treated as zero). Stated for stress and body battery, the
families named by the claim. -/
theorem zero_reading_amended (name : String) (q : ℚ) (hq : q ≠ 0) :
    avg_stress_of_day [(name, PyVal.pval
      (Json.obj [("avgStressLevel", Json.num 0)]))] = none ∧
    avg_stress_of_day [(name, PyVal.pval
      (Json.obj [("avgStressLevel", Json.num q)]))] = some q ∧
    avg_stress_of_day [] = none ∧
    avg_body_battery_of_day [(name, PyVal.pval
      (Json.obj [("bodyBatteryValue", Json.num 0)]))] = none ∧
    avg_body_battery_of_day [(name, PyVal.pval
      (Json.obj [("bodyBatteryValue", Json.num q)]))] = some q ∧
    avg_body_battery_of_day [] = none := by
  refine ⟨?_, ?_, rfl, ?_, ?_, rfl⟩ <;>
    simp [avg_stress_of_day, avg_body_battery_of_day, stress_row,
      body_battery_row, value_data, arm, py_contains, py_get, lookup_str,
      truthy, py_float, mean, hq]

/-- C3 witness: the amended behaviour at a concrete nonzero reading of 37. -/
theorem zero_reading_witness :
    avg_stress_of_day [("stress.avgStressLevel", PyVal.pval
      (Json.obj [("avgStressLevel", Json.num 0)]))] = none ∧
    avg_stress_of_day [("stress.avgStressLevel", PyVal.pval
      (Json.obj [("avgStressLevel", Json.num 37)]))] = some 37 ∧
    avg_stress_of_day [] = none ∧
    avg_body_battery_of_day [("body_battery.item_0", PyVal.pval
      (Json.obj [("bodyBatteryValue", Json.num 0)]))] = none ∧
    avg_body_battery_of_day [("body_battery.item_0", PyVal.pval
      (Json.obj [("bodyBatteryValue", Json.num 37)]))] = some 37 ∧
    avg_body_battery_of_day [] = none :=
  ⟨(zero_reading_amended "stress.avgStressLevel" 37 (by norm_num)).1,
   (zero_reading_amended "stress.avgStressLevel" 37 (by norm_num)).2.1,
   (zero_reading_amended "stress.avgStressLevel" 37 (by norm_num)).2.2.1,
   (zero_reading_amended "body_battery.item_0" 37 (by norm_num)).2.2.2.1,
   (zero_reading_amended "body_battery.item_0" 37 (by norm_num)).2.2.2.2.1,
   (zero_reading_amended "body_battery.item_0" 37 (by norm_num)).2.2.2.2.2⟩

/-- C10 witness: a fetch that always returns an empty data dict (with valid
dates) leaves the single pending job marked failed. -/
theorem empty_results_failed_witness :
    calculate_analytics (fun _ _ => 0)
      (fun _ => ([], some "2024-01-01", some "2024-03-31")) 2 = [] ∧
    save_analytics_results_ok (calculate_analytics (fun _ _ => 0)
      (fun _ => ([], some "2024-01-01", some "2024-03-31")) 2) = false ∧
    run_processor_drain
      (fun u => Except.ok (calculate_analytics (fun _ _ => 0)
        (fun _ => ([], some "2024-01-01", some "2024-03-31")) u))
      (fun _ => JobStatus.pending) [(1, 2)] 1 = JobStatus.failed :=
  empty_results_failed (fun _ _ => 0)
    (fun _ => ([], some "2024-01-01", some "2024-03-31"))
    (fun _ => JobStatus.pending) 1 2 (fun _ => rfl)

/-! ## Correlation lemmas -/

/-- Swapping the two columns swaps every overlap pair. -/
theorem overlap_swap (dm : DailyMetrics) (a b : String) :
    overlap dm b a = (overlap dm a b).map Prod.swap := by
  induction dm with
  | nil => rfl
  | cons r rest ih =>
    unfold overlap at ih ⊢
    cases ha : lookup_str r.2 a <;> cases hb : lookup_str r.2 b <;>
      simp [List.filterMap_cons, ha, hb, ih]

/-- Zipping a list with itself pairs each element with itself. -/
theorem zip_self_eq_map (xs : List ℚ) :
    xs.zip xs = xs.map (fun x => (x, x)) := by
  induction xs with
  | nil => rfl
  | cons x rest ih => simp [List.zip_cons_cons, ih]

/-- The centered self cross-product is a sum of squares, hence nonnegative. -/
theorem centered_dot_self_nonneg (xs : List ℚ) : 0 ≤ centered_dot xs xs := by
  unfold centered_dot
  rw [zip_self_eq_map, List.map_map]
  refine List.sum_nonneg ?_
  intro q hq
  rcases List.mem_map.mp hq with ⟨x, _, hxq⟩
  rw [← hxq]
  exact mul_self_nonneg _

/-- The centered cross-product is symmetric in its two series. -/
theorem centered_dot_comm (xs ys : List ℚ) :
    centered_dot xs ys = centered_dot ys xs := by
  unfold centered_dot
  rw [← List.zip_swap ys xs, List.map_map]
  congr 1
  apply List.map_congr_left
  intro p _
  simp [Prod.swap]
  ring

/-- The correlation matrix entry is symmetric, as pandas assigns
`result[xi, yi] = result[yi, xi]`. -/
theorem corr_entry_symm (dm : DailyMetrics) (a b : String) :
    corr_entry dm a b = corr_entry dm b a := by
  simp only [corr_entry]
  rw [overlap_swap dm a b, List.length_map, List.map_map, List.map_map]
  have h1 : (Prod.fst ∘ Prod.swap : ℚ × ℚ → ℚ) = Prod.snd := rfl
  have h2 : (Prod.snd ∘ Prod.swap : ℚ × ℚ → ℚ) = Prod.fst := rfl
  rw [h1, h2,
    centered_dot_comm ((overlap dm a b).map Prod.snd)
      ((overlap dm a b).map Prod.fst),
    mul_comm (centered_dot ((overlap dm a b).map Prod.snd)
        ((overlap dm a b).map Prod.snd))
      (centered_dot ((overlap dm a b).map Prod.fst)
        ((overlap dm a b).map Prod.fst))]

/-- The overlap of a column with itself pairs its non-null values with
themselves. -/
theorem overlap_self (dm : DailyMetrics) (c : String) :
    overlap dm c c = (col_values dm c).map (fun v => (v, v)) := by
  induction dm with
  | nil => rfl
  | cons r rest ih =>
    unfold overlap col_values at ih ⊢
    cases hc : lookup_str r.2 c <;> simp [List.filterMap_cons, hc, ih]

/-- The diagonal entry of the correlation matrix: exactly 1 when the column
has at least `min_periods` non-null values and nonzero variance, otherwise
NaN (null) — pandas applies the `min_periods` test and the zero-divisor test
to the diagonal like any other pair. -/
theorem corr_entry_diag (dm : DailyMetrics) (c : String) :
    corr_entry dm c c =
      (if 3 ≤ (col_values dm c).length ∧
          centered_dot (col_values dm c) (col_values dm c) ≠ 0
       then some 1 else none) := by
  simp only [corr_entry]
  rw [overlap_self, List.length_map, List.map_map, List.map_map]
  have h1 : (Prod.fst ∘ (fun v => ((v : ℚ), v))) = id := rfl
  have h2 : (Prod.snd ∘ (fun v => ((v : ℚ), v))) = id := rfl
  rw [h1, h2, List.map_id]
  set S := centered_dot (col_values dm c) (col_values dm c) with hS
  by_cases h3 : (col_values dm c).length < 3
  · rw [if_pos h3, if_neg (by omega)]
  · rw [if_neg h3]
    by_cases hz : S = 0
    · rw [if_pos (by rw [hz]; ring), if_neg (by simp [hz])]
    · have hpos : 0 < S := lt_of_le_of_ne (centered_dot_self_nonneg _)
        (Ne.symm hz)
      have hSS : ¬(S * S = 0) := by simpa [mul_self_eq_zero] using hz
      have h3le : 3 ≤ (col_values dm c).length := by omega
      rw [if_neg hSS, if_pos (And.intro h3le hz),
        if_neg (not_lt.mpr (le_of_lt hpos)), one_mul, pow_two,
        div_self (mul_ne_zero hz hz)]

/-- Every element of the important-correlations list records an existing
non-null matrix entry for its pair. -/
theorem important_corr_entry (dm : DailyMetrics) (e : ImpCorr)
    (he : e ∈ important_correlations dm) :
    corr_entry dm e.metric1 e.metric2 = some e.corr := by
  unfold important_correlations at he
  rcases List.mem_filterMap.mp he with ⟨p, _, hmatch⟩
  cases hco : corr_entry dm p.1 p.2 with
  | none => rw [hco] at hmatch; cases hmatch
  | some v =>
    rw [hco] at hmatch
    dsimp only at hmatch
    by_cases hv : 1/4 < |v|
    · rw [if_pos hv] at hmatch
      have he2 := Option.some.inj hmatch
      rw [← he2, hco]
    · rw [if_neg hv] at hmatch; cases hmatch

/-- C5: a pair of metric columns with fewer than 3 co-occurring days yields a
null correlation matrix entry rather than any numeric value, and such a pair
never appears (in either order) in the filtered important-correlations
list. -/
theorem corr_min_overlap_null (dm : DailyMetrics) (a b : String)
    (h : (overlap dm a b).length < 3) :
    corr_entry dm a b = none ∧
    ∀ e ∈ important_correlations dm,
      ¬(e.metric1 = a ∧ e.metric2 = b) ∧
      ¬(e.metric1 = b ∧ e.metric2 = a) := by
  have hab : corr_entry dm a b = none := by
    simp only [corr_entry]
    rw [if_pos h]
  have hba : corr_entry dm b a = none := by
    rw [← corr_entry_symm]; exact hab
  refine ⟨hab, fun e he => ⟨?_, ?_⟩⟩
  · rintro ⟨h1, h2⟩
    have hc := important_corr_entry dm e he
    rw [h1, h2, hab] at hc
    cases hc
  · rintro ⟨h1, h2⟩
    have hc := important_corr_entry dm e he
    rw [h1, h2, hba] at hc
    cases hc

/-- C5 witness: the concrete frame `dmC5`, where columns `a` and `b` overlap
on only 2 days, has a null entry for the pair. -/
theorem corr_min_overlap_witness : corr_entry dmC5 "a" "b" = none :=
  (corr_min_overlap_null dmC5 "a" "b" (by decide)).1

/-- C6 counterexample: the frame `dmC6` has 2 columns and does produce a
correlation matrix, yet the diagonal self-correlation entry of column `a`
(which has only 2 non-null days) is null, not 1.0. -/
theorem corr_diag_cex :
    2 ≤ (columns_of dmC6).length ∧
    (calculate_correlation_metrics dmC6).isSome = true ∧
    corr_entry dmC6 "a" "a" = none := by
  refine ⟨by decide, by decide, ?_⟩
  simp [corr_entry, overlap, dmC6, lookup_str]

/-- C6 (amended): the correlation matrix entry is symmetric for every pair,
and a diagonal self-correlation entry is 1.0 exactly when its column has at
least 3 non-null days and nonzero variance — otherwise it is null, because
pandas applies `min_periods` and the zero-variance rule to the diagonal
too. -/
theorem corr_symm_diag_amended (dm : DailyMetrics) (a b c : String) :
    corr_entry dm a b = corr_entry dm b a ∧
    corr_entry dm c c =
      (if 3 ≤ (col_values dm c).length ∧
          centered_dot (col_values dm c) (col_values dm c) ≠ 0
       then some 1 else none) :=
  ⟨corr_entry_symm dm a b, corr_entry_diag dm c⟩

/-! ## Trend lemmas -/

/-- String append acts as append on the underlying character lists. -/
theorem string_data_append (a b : String) : (a ++ b).data = a.data ++ b.data
    := by
  cases a; cases b; rfl

/-- Two `{column}_trend` keys agree only for the same column. -/
theorem trend_key_inj {a b : String} (h : a ++ "_trend" = b ++ "_trend") :
    a = b := by
  have hd : a.data ++ "_trend".data = b.data ++ "_trend".data := by
    have h2 := congrArg String.data h
    rwa [string_data_append, string_data_append] at h2
  have hab : a.data = b.data := List.append_cancel_right hd
  cases a; cases b
  exact congrArg String.mk hab

/-- A `{column}_pct_change` key is never a `{column}_trend` key: their
6-character suffixes differ. -/
theorem pct_key_ne_trend_key (a b : String) :
    a ++ "_pct_change" ≠ b ++ "_trend" := by
  intro h
  have hd : a.data ++ "_pct_change".data = b.data ++ "_trend".data := by
    have h2 := congrArg String.data h
    rwa [string_data_append, string_data_append] at h2
  have h3 := congrArg (fun l => (l.reverse.take 6)) hd
  simp only [List.reverse_append] at h3
  rw [List.take_append_of_le_length (by decide),
    List.take_append_of_le_length (by decide)] at h3
  exact absurd h3 (by decide)

/-- Lookup distributes over list append, first list first. -/
theorem lookup_str_append {α : Type} (l1 l2 : List (String × α)) (k : String) :
    lookup_str (l1 ++ l2) k =
      (match lookup_str l1 k with
       | some v => some v
       | none => lookup_str l2 k) := by
  induction l1 with
  | nil => rfl
  | cons p rest ih =>
    by_cases hp : p.1 = k
    · simp [lookup_str, hp]
    · simp [lookup_str, hp, ih]

/-- A successful lookup means the key occurs in the dict. -/
theorem lookup_str_mem_keys {α : Type} {l : List (String × α)} {k : String}
    {v : α} (h : lookup_str l k = some v) : k ∈ l.map Prod.fst := by
  induction l with
  | nil => cases h
  | cons p rest ih =>
    by_cases hp : p.1 = k
    · simp [hp]
    · simp only [lookup_str, if_neg hp] at h
      simp [ih h]

/-- Membership in the first-occurrence dedup is membership in the list. -/
theorem mem_first_dedup {x : String} {l : List String} :
    x ∈ first_dedup l ↔ x ∈ l := by
  have haux : ∀ (l acc : List String),
      (x ∈ l.foldl (fun acc y => if acc.contains y then acc else acc ++ [y])
        acc) ↔ x ∈ acc ∨ x ∈ l := by
    intro l
    induction l with
    | nil => intro acc; simp
    | cons y rest ih =>
      intro acc
      by_cases hy : acc.contains y
      · rw [List.foldl_cons, if_pos hy, ih]
        constructor
        · rintro (h | h)
          · exact Or.inl h
          · exact Or.inr (List.mem_cons_of_mem y h)
        · rintro (h | h)
          · exact Or.inl h
          · rcases List.mem_cons.mp h with h | h
            · subst h
              exact Or.inl (by simpa using hy)
            · exact Or.inr h
      · rw [List.foldl_cons, if_neg hy, ih]
        simp only [List.mem_append, List.mem_singleton, List.mem_cons]
        tauto
  unfold first_dedup
  rw [haux]
  simp

/-- Membership is preserved by date-sorted insertion. -/
theorem mem_insert_by_date {x r : String × List (String × ℚ)}
    {l : DailyMetrics} : x ∈ insert_by_date r l ↔ x = r ∨ x ∈ l := by
  induction l with
  | nil => simp [insert_by_date]
  | cons s rest ih =>
    unfold insert_by_date
    by_cases hle : str_le r.1 s.1
    · simp [hle, or_assoc]
    · rw [if_neg hle]
      simp only [List.mem_cons, ih]
      tauto

/-- Sorting by date preserves membership. -/
theorem mem_sort_by_date {r : String × List (String × ℚ)}
    {dm : DailyMetrics} : r ∈ sort_by_date dm ↔ r ∈ dm := by
  induction dm with
  | nil => simp [sort_by_date]
  | cons s rest ih =>
    unfold sort_by_date
    rw [mem_insert_by_date, ih]
    simp

/-- A column with any non-null value is one of the frame columns. -/
theorem col_series_mem_columns {dm : DailyMetrics} {c : String}
    (h : col_series dm c ≠ []) : c ∈ columns_of dm := by
  rcases List.exists_mem_of_ne_nil _ h with ⟨v, hv⟩
  unfold col_series at hv
  rcases List.mem_filterMap.mp hv with ⟨r, hr, hlook⟩
  have hrdm : r ∈ dm := mem_sort_by_date.mp hr
  have hkey : c ∈ r.2.map Prod.fst := lookup_str_mem_keys hlook
  unfold columns_of
  rw [mem_first_dedup]
  exact List.mem_flatMap.mpr ⟨r, hrdm, hkey⟩

/-- The entries contributed by a different column never hold the
`{c}_trend` key. -/
theorem lookup_trend_of_column_ne (pval : ℕ → ℚ → ℚ) (dm : DailyMetrics)
    {c2 c : String} (hne : c2 ≠ c) :
    lookup_str (trend_of_column pval dm c2) (c ++ "_trend") = none := by
  simp only [trend_of_column]
  by_cases h3 : 3 ≤ (col_series dm c2).length
  · rw [if_pos h3]
    rw [lookup_str, if_neg (fun he => hne (trend_key_inj he))]
    by_cases hp : 1 < (col_series dm c2).length ∧ (col_series dm c2).headI ≠ 0
    · rw [if_pos hp, lookup_str, if_neg (pct_key_ne_trend_key c2 c)]
      rfl
    · rw [if_neg hp]
      rfl
  · rw [if_neg h3]
    rfl

/-- A column with fewer than 3 points contributes no entries at all. -/
theorem lookup_trend_of_column_short (pval : ℕ → ℚ → ℚ)
    (dm : DailyMetrics) {c2 : String} (k : String)
    (h3 : ¬ 3 ≤ (col_series dm c2).length) :
    lookup_str (trend_of_column pval dm c2) k = none := by
  simp only [trend_of_column, if_neg h3]
  rfl

/-- Lookup of the `{c}_trend` key across the per-column entries of any
column list. -/
theorem lookup_trend_flatMap (pval : ℕ → ℚ → ℚ) (dm : DailyMetrics)
    (c : String) (cols : List String) :
    lookup_str (cols.flatMap (trend_of_column pval dm)) (c ++ "_trend")
      = (if c ∈ cols ∧ 3 ≤ (col_series dm c).length
         then some (TrendVal.trend (lin_entry pval (col_series dm c)))
         else none) := by
  induction cols with
  | nil => simp [lookup_str]
  | cons c2 rest ih =>
    rw [List.flatMap_cons, lookup_str_append]
    by_cases hc : c2 = c
    · subst hc
      by_cases h3 : 3 ≤ (col_series dm c2).length
      · simp [trend_of_column, h3, lookup_str]
      · rw [lookup_trend_of_column_short pval dm _ h3, ih]
        dsimp only
        rw [if_neg (fun hand => h3 hand.2), if_neg (fun hand => h3 hand.2)]
    · rw [lookup_trend_of_column_ne pval dm hc, ih]
      dsimp only
      by_cases hmem : c ∈ rest
      · by_cases h3 : 3 ≤ (col_series dm c).length
        · rw [if_pos (And.intro hmem h3),
            if_pos (And.intro (List.mem_cons_of_mem c2 hmem) h3)]
        · rw [if_neg (fun hand => h3 hand.2), if_neg (fun hand => h3 hand.2)]
      · rw [if_neg (fun hand => hmem hand.1),
          if_neg (fun hand => (List.mem_cons.mp hand.1).elim
            (fun he => hc he.symm) hmem)]

/-- C4 (amended): for every metric column, the trend dict holds a
`{column}_trend` entry exactly when the column has at least 3 non-null
points; the entry is the ordinary-least-squares fit of the column values
against the 0-based index of each value within the chronologically sorted
non-null series (which equals the day-index exactly when the column has no
internal gaps), carrying slope, R², p-value and
`significant = (p_value < 0.05)`. -/
theorem trend_amended (pval : ℕ → ℚ → ℚ) (dm : DailyMetrics) (c : String) :
    lookup_str (calculate_trend_metrics pval dm) (c ++ "_trend")
      = (if 3 ≤ (col_series dm c).length
         then some (TrendVal.trend (lin_entry pval (col_series dm c)))
         else none) ∧
    (∀ e, lookup_str (calculate_trend_metrics pval dm) (c ++ "_trend")
      = some (TrendVal.trend e) →
      (e.significant = true ↔ e.p_value < 1/20)) := by
  have hmain : lookup_str (calculate_trend_metrics pval dm) (c ++ "_trend")
      = (if 3 ≤ (col_series dm c).length
         then some (TrendVal.trend (lin_entry pval (col_series dm c)))
         else none) := by
    rw [calculate_trend_metrics, lookup_trend_flatMap]
    by_cases h3 : 3 ≤ (col_series dm c).length
    · have hne : col_series dm c ≠ [] := by
        intro he
        rw [he] at h3
        simp at h3
      rw [if_pos (And.intro (col_series_mem_columns hne) h3), if_pos h3]
    · rw [if_neg (fun hand => h3 hand.2), if_neg h3]
  refine ⟨hmain, fun e he => ?_⟩
  rw [hmain] at he
  by_cases h3 : 3 ≤ (col_series dm c).length
  · rw [if_pos h3] at he
    have he2 : TrendVal.trend (lin_entry pval (col_series dm c))
        = TrendVal.trend e := Option.some.inj he
    have he3 : lin_entry pval (col_series dm c) = e := by
      cases he2; rfl
    rw [← he3]
    simp only [lin_entry]
    exact decide_eq_true_iff
  · rw [if_neg h3] at he
    cases he

/-- C4 counterexample: in the frame `dmC4`, column `a` has values 1, 2, 10
on day-indices 0, 1, 3 (day 2 exists but has no `a` value). The code
regresses against `np.arange` over the compacted non-null series and emits
slope 9/2; a regression against the 0-based day-index, as the claim words
it, would give slope 22/7 — a different number. -/
theorem trend_day_index_cex :
    lookup_str (calculate_trend_metrics (fun _ _ => 0) dmC4) ("a" ++ "_trend")
      = some (TrendVal.trend (lin_entry (fun _ _ => 0)
          (col_series dmC4 "a"))) ∧
    (lin_entry (fun _ _ => 0) (col_series dmC4 "a")).slope = 9/2 ∧
    spec_slope_day_index dmC4 "a" = 22/7 ∧
    ((9 : ℚ)/2 ≠ 22/7) := by
  refine ⟨?_, ?_, ?_, by norm_num⟩
  · rw [calculate_trend_metrics, lookup_trend_flatMap]
    rw [if_pos (And.intro (by decide) (by
      simp [col_series, dmC4, sort_by_date, insert_by_date, str_le, le_chars,
        lookup_str]))]
  · have hcs : col_series dmC4 "a" = [1, 2, 10] := by
      simp [col_series, dmC4, sort_by_date, insert_by_date, str_le, le_chars,
        lookup_str]
    rw [hcs]
    simp [lin_entry, centered_dot, mean, List.range_succ]
    norm_num
  · simp [spec_slope_day_index, ols_slope_points, col_series_with_day_index,
      dmC4, sort_by_date, insert_by_date, str_le, le_chars, lookup_str,
      centered_dot, mean, List.enum, List.enumFrom]
    norm_num

/-- C4 witness: `trend_amended` evaluated on `dmC4` — column `a` (3 points)
gets a trend entry, column `b` (1 point) gets none. -/
theorem trend_witness :
    lookup_str (calculate_trend_metrics (fun _ _ => 0) dmC4) ("a" ++ "_trend")
      = some (TrendVal.trend (lin_entry (fun _ _ => 0)
          (col_series dmC4 "a"))) ∧
    lookup_str (calculate_trend_metrics (fun _ _ => 0) dmC4) ("b" ++ "_trend")
      = none := by
  constructor
  · rw [(trend_amended (fun _ _ => 0) dmC4 "a").1]
    rw [if_pos (by
      simp [col_series, dmC4, sort_by_date, insert_by_date, str_le, le_chars,
        lookup_str])]
  · rw [(trend_amended (fun _ _ => 0) dmC4 "b").1]
    rw [if_neg (by
      simp [col_series, dmC4, sort_by_date, insert_by_date, str_le, le_chars,
        lookup_str])]

end Biometric
